import Mathlib

/-!
Verification model of the mcp-real-debrid repository.

The two client modules are shallowly embedded:
  * `src/jackett.py`  — Torznab feed parser (`JackettAPI.parse_torznab_xml`,
    `SearchItem` with its pydantic validators) and the three search calls.
  * `src/real_debrid.py` — the Real-Debrid client (`RealDebrid.*`).

HTTP traffic is modelled by passing each call the status code and
(already JSON/XML decoded) body of the response it would receive; the
XML decoding step `xml.etree.ElementTree.fromstring` is modelled by an
`Option XElem` argument where `none` stands for `ET.ParseError`.
Python exceptions are modelled with `Except PyError`; a pydantic
`ValidationError` inside a validator is modelled by the validator
returning `none`.
-/

/-- Python exception values that the modelled code can raise. -/
inductive PyError where
  /-- `httpx.HTTPStatusError` carrying its message and the response status code. -/
  | httpStatusError (message : String) (statusCode : Nat)
  /-- `pydantic.ValidationError` raised while constructing a model. -/
  | validationError
  /-- `TypeError`, e.g. subtracting `None` from a `datetime`. -/
  | typeError (message : String)
  /-- `ValueError`, e.g. `datetime.strptime` on non-matching data. -/
  | valueError (message : String)
  /-- `KeyError` from a dict subscript on a missing key. -/
  | keyError (key : String)
deriving DecidableEq, Repr

/-! ### Python `int(...)` on strings

Models CPython `int(str)`: optional surrounding whitespace, optional
sign, a non-empty digit run in which single underscores may separate
digits. -/

/-- Numeric value of a decimal digit character. -/
def digitVal (c : Char) : Nat := c.toNat - 48

/-- Strip leading and trailing whitespace from a character list. -/
def pyStripList (cs : List Char) : List Char :=
  ((cs.dropWhile Char.isWhitespace).reverse.dropWhile Char.isWhitespace).reverse

/-- Python `str.strip()` with no argument: whitespace removed from both ends. -/
def pyStrip (s : String) : String := String.mk (pyStripList s.data)

/-- Digit run with optional single underscores between digits (CPython grammar). -/
def pyDigitsAux : List Char → Nat → Option Nat
  | [], acc => some acc
  | c :: rest, acc =>
    if c.isDigit then pyDigitsAux rest (acc * 10 + digitVal c)
    else if c == '_' then
      match rest with
      | c2 :: rest2 =>
        if c2.isDigit then pyDigitsAux rest2 (acc * 10 + digitVal c2) else none
      | [] => none
    else none

/-- A non-empty digit sequence (first character must be a digit). -/
def pyIntDigits : List Char → Option Nat
  | [] => none
  | c :: rest => if c.isDigit then pyDigitsAux rest (digitVal c) else none

/-- Python `int(s)` for a decimal string; `none` models a raised `ValueError`. -/
def pyInt (s : String) : Option Int :=
  match pyStripList s.data with
  | '+' :: rest => (pyIntDigits rest).map Int.ofNat
  | '-' :: rest => (pyIntDigits rest).map (fun n => -(n : Int))
  | rest => (pyIntDigits rest).map Int.ofNat

/-! ### `datetime.strptime` for the three fixed formats used by the code -/

/-- A Python `datetime` value: date and time fields plus an optional
UTC offset in microseconds (`none` models a naive datetime). -/
structure PDateTime where
  year : Nat
  month : Nat
  day : Nat
  hour : Nat
  minute : Nat
  second : Nat
  micro : Nat
  tz : Option Int
deriving DecidableEq, Repr

/-- Gregorian leap-year test. -/
def isLeap (y : Nat) : Bool := y % 4 == 0 && (y % 100 != 0 || y % 400 == 0)

/-- Number of days in a month. -/
def daysInMonth (y m : Nat) : Nat :=
  if m == 2 then (if isLeap y then 29 else 28)
  else if m == 4 || m == 6 || m == 9 || m == 11 then 30 else 31

/-- The `datetime.datetime` constructor's range validation. -/
def mkDatetime (year month day hour minute second micro : Nat) (tz : Option Int) :
    Option PDateTime :=
  if 1 ≤ year ∧ year ≤ 9999 ∧ 1 ≤ month ∧ month ≤ 12 ∧ 1 ≤ day ∧
      day ≤ daysInMonth year month ∧ hour ≤ 23 ∧ minute ≤ 59 ∧ second ≤ 59 ∧
      micro ≤ 999999 then
    some ⟨year, month, day, hour, minute, second, micro, tz⟩
  else none

/-- Match a literal string case-insensitively, returning the rest of the input. -/
def matchCI : List Char → List Char → Option (List Char)
  | [], cs => some cs
  | _ :: _, [] => none
  | p :: ps, c :: cs => if p.toLower == c.toLower then matchCI ps cs else none

/-- Match any of the given literals (first that fits), case-insensitively. -/
def matchAnyCI (pats : List String) (cs : List Char) : Option (List Char) :=
  match pats with
  | [] => none
  | p :: ps =>
    match matchCI p.data cs with
    | some rest => some rest
    | none => matchAnyCI ps cs

/-- Abbreviated month names of the C locale, as `_strptime` knows them. -/
def monthNames : List String :=
  ["Jan", "Feb", "Mar", "Apr", "May", "Jun", "Jul", "Aug", "Sep", "Oct", "Nov", "Dec"]

/-- Abbreviated weekday names of the C locale. -/
def weekdayNames : List String := ["Mon", "Tue", "Wed", "Thu", "Fri", "Sat", "Sun"]

/-- Match a month name case-insensitively, returning its 1-based number. -/
def matchMonthAux (i : Nat) : List String → List Char → Option (Nat × List Char)
  | [], _ => none
  | p :: ps, cs =>
    match matchCI p.data cs with
    | some rest => some (i, rest)
    | none => matchMonthAux (i + 1) ps cs

/-- Month-name matcher entry point (`%b`). -/
def matchMonth (cs : List Char) : Option (Nat × List Char) := matchMonthAux 1 monthNames cs

/-- One or more whitespace characters (whitespace in a strptime format). -/
def takeWS1 : List Char → Option (List Char)
  | c :: cs => if c.isWhitespace then some (cs.dropWhile Char.isWhitespace) else none
  | [] => none

/-- A literal character, matched exactly. -/
def expectChar (ch : Char) : List Char → Option (List Char)
  | c :: cs => if c == ch then some cs else none
  | [] => none

/-- A literal character, matched case-insensitively (the whole strptime
regex is compiled with IGNORECASE). -/
def expectCharCI (ch : Char) : List Char → Option (List Char)
  | c :: cs => if c.toLower == ch.toLower then some cs else none
  | [] => none

/-- Exactly two digits whose value lies in `[lo, hi]`. -/
def take2DigitsRange (lo hi : Nat) (cs : List Char) : Option (Nat × List Char) :=
  match cs with
  | c1 :: c2 :: rest =>
    if c1.isDigit && c2.isDigit then
      let v := digitVal c1 * 10 + digitVal c2
      if lo ≤ v && v ≤ hi then some (v, rest) else none
    else none
  | _ => none

/-- Two digits with value in `[lo2, hi2]`, else one digit with value at
least `lo1` — the shape of the `%d`, `%m`, `%H`, `%M`, `%S` regexes. -/
def take2or1 (lo2 hi2 lo1 : Nat) (cs : List Char) : Option (Nat × List Char) :=
  match cs with
  | c1 :: rest =>
    if c1.isDigit then
      match rest with
      | c2 :: rest2 =>
        if c2.isDigit then
          let v := digitVal c1 * 10 + digitVal c2
          if lo2 ≤ v && v ≤ hi2 then some (v, rest2)
          else if lo1 ≤ digitVal c1 then some (digitVal c1, rest) else none
        else if lo1 ≤ digitVal c1 then some (digitVal c1, rest) else none
      | [] => if lo1 ≤ digitVal c1 then some (digitVal c1, []) else none
    else none
  | [] => none

/-- Exactly four digits (`%Y`). -/
def take4Digits : List Char → Option (Nat × List Char)
  | c1 :: c2 :: c3 :: c4 :: rest =>
    if c1.isDigit && c2.isDigit && c3.isDigit && c4.isDigit then
      some (((digitVal c1 * 10 + digitVal c2) * 10 + digitVal c3) * 10 + digitVal c4, rest)
    else none
  | _ => none

/-- Up to `fuel` digits, greedily; returns value, count consumed, rest. -/
def takeDigitsUpTo : Nat → Nat → Nat → List Char → Nat × Nat × List Char
  | 0, acc, len, cs => (acc, len, cs)
  | Nat.succ k, acc, len, cs =>
    match cs with
    | c :: rest =>
      if c.isDigit then takeDigitsUpTo k (acc * 10 + digitVal c) (len + 1) rest
      else (acc, len, cs)
    | [] => (acc, len, [])

/-- `%f`: one to six digits, right-padded with zeros to microseconds. -/
def takeFrac (cs : List Char) : Option (Nat × List Char) :=
  let r := takeDigitsUpTo 6 0 0 cs
  if r.2.1 == 0 then none else some (r.1 * 10 ^ (6 - r.2.1), r.2.2)

/-- Optional `:?SS(.ffffff)?` tail of a `%z` offset; consumes nothing on failure. -/
def takeTZSecFrac (cs : List Char) : Nat × Nat × List Char :=
  let attempt : Option (Nat × Nat × List Char) :=
    let cs' := match cs with | ':' :: r => r | _ => cs
    match take2DigitsRange 0 59 cs' with
    | none => none
    | some (ss, r) =>
      match r with
      | '.' :: r2 =>
        match takeFrac r2 with
        | some (us, r3) => some (ss, us, r3)
        | none => none
      | _ => some (ss, 0, r)
  match attempt with
  | some x => x
  | none => (0, 0, cs)

/-- `%z`: `Z` (case-sensitive) or `±HH:?MM(:?SS(.ffffff)?)?`, with the
`timezone` constructor's strict 24-hour bound; offset in microseconds. -/
def takeTZ (cs : List Char) : Option (Int × List Char) :=
  match cs with
  | 'Z' :: rest => some (0, rest)
  | c :: rest =>
    if c == '+' || c == '-' then
      match take2DigitsRange 0 99 rest with
      | none => none
      | some (hh, r1) =>
        let r1' := match r1 with | ':' :: r => r | _ => r1
        match take2DigitsRange 0 59 r1' with
        | none => none
        | some (mm, r2) =>
          let sf := takeTZSecFrac r2
          let total : Int := ((hh * 3600 + mm * 60 + sf.1 : Nat) : Int) * 1000000 + (sf.2.1 : Int)
          if total < 86400000000 then
            some (if c == '-' then -total else total, sf.2.2)
          else none
    else none
  | [] => none

/-- `datetime.strptime(s, "%a, %d %b %Y %H:%M:%S %z")`, the pubDate format. -/
def strptimeRFC822 (s : String) : Option PDateTime :=
  match matchAnyCI weekdayNames s.data with
  | none => none
  | some r1 =>
  match expectChar ',' r1 with
  | none => none
  | some r2 =>
  match takeWS1 r2 with
  | none => none
  | some r3 =>
  match take2or1 1 31 1 r3 with
  | none => none
  | some (day, r4) =>
  match takeWS1 r4 with
  | none => none
  | some r5 =>
  match matchMonth r5 with
  | none => none
  | some (month, r6) =>
  match takeWS1 r6 with
  | none => none
  | some r7 =>
  match take4Digits r7 with
  | none => none
  | some (year, r8) =>
  match takeWS1 r8 with
  | none => none
  | some r9 =>
  match take2or1 0 23 0 r9 with
  | none => none
  | some (hour, r10) =>
  match expectChar ':' r10 with
  | none => none
  | some r11 =>
  match take2or1 0 59 0 r11 with
  | none => none
  | some (minute, r12) =>
  match expectChar ':' r12 with
  | none => none
  | some r13 =>
  match take2or1 0 61 0 r13 with
  | none => none
  | some (second, r14) =>
  match takeWS1 r14 with
  | none => none
  | some r15 =>
  match takeTZ r15 with
  | none => none
  | some (off, r16) =>
  if r16.isEmpty then mkDatetime year month day hour minute second 0 (some off) else none

/-- `datetime.strptime(s, "%Y-%m-%d %H:%M:%S")`, the `/time` endpoint format. -/
def strptimeServerTime (s : String) : Option PDateTime :=
  match take4Digits s.data with
  | none => none
  | some (year, r1) =>
  match expectChar '-' r1 with
  | none => none
  | some r2 =>
  match take2or1 1 12 1 r2 with
  | none => none
  | some (month, r3) =>
  match expectChar '-' r3 with
  | none => none
  | some r4 =>
  match take2or1 1 31 1 r4 with
  | none => none
  | some (day, r5) =>
  match takeWS1 r5 with
  | none => none
  | some r6 =>
  match take2or1 0 23 0 r6 with
  | none => none
  | some (hour, r7) =>
  match expectChar ':' r7 with
  | none => none
  | some r8 =>
  match take2or1 0 59 0 r8 with
  | none => none
  | some (minute, r9) =>
  match expectChar ':' r9 with
  | none => none
  | some r10 =>
  match take2or1 0 61 0 r10 with
  | none => none
  | some (second, r11) =>
  if r11.isEmpty then mkDatetime year month day hour minute second 0 none else none

/-- `datetime.strptime(s, "%Y-%m-%dT%H:%M:%S.%fZ")`, the `expiration` format. -/
def strptimeExpiration (s : String) : Option PDateTime :=
  match take4Digits s.data with
  | none => none
  | some (year, r1) =>
  match expectChar '-' r1 with
  | none => none
  | some r2 =>
  match take2or1 1 12 1 r2 with
  | none => none
  | some (month, r3) =>
  match expectChar '-' r3 with
  | none => none
  | some r4 =>
  match take2or1 1 31 1 r4 with
  | none => none
  | some (day, r5) =>
  match expectCharCI 'T' r5 with
  | none => none
  | some r6 =>
  match take2or1 0 23 0 r6 with
  | none => none
  | some (hour, r7) =>
  match expectChar ':' r7 with
  | none => none
  | some r8 =>
  match take2or1 0 59 0 r8 with
  | none => none
  | some (minute, r9) =>
  match expectChar ':' r9 with
  | none => none
  | some r10 =>
  match take2or1 0 61 0 r10 with
  | none => none
  | some (second, r11) =>
  match expectChar '.' r11 with
  | none => none
  | some r12 =>
  match takeFrac r12 with
  | none => none
  | some (micro, r13) =>
  match expectCharCI 'Z' r13 with
  | none => none
  | some r14 =>
  if r14.isEmpty then mkDatetime year month day hour minute second micro none else none

/-- Days since 1970-01-01 of a civil date (Hinnant's algorithm, as used
for `datetime` arithmetic). -/
def daysFromCivil (y m d : Int) : Int :=
  let y2 := if m ≤ 2 then y - 1 else y
  let era := (if 0 ≤ y2 then y2 else y2 - 399) / 400
  let yoe := y2 - era * 400
  let mp := (m + 9) % 12
  let doy := (153 * mp + 2) / 5 + d - 1
  let doe := yoe * 365 + yoe / 4 - yoe / 100 + doy
  era * 146097 + doe - 719468

/-- Microseconds since the epoch of a (naive) `PDateTime`. -/
def toMicros (t : PDateTime) : Int :=
  daysFromCivil t.year t.month t.day * 86400000000 + (t.hour : Int) * 3600000000 +
    (t.minute : Int) * 60000000 + (t.second : Int) * 1000000 + (t.micro : Int)

/-- `datetime - datetime` for naive datetimes: a `timedelta` in microseconds. -/
def dtSub (a b : PDateTime) : Int := toMicros a - toMicros b

/-! ### `xml.etree.ElementTree` model -/

/-- An XML element as ElementTree exposes it: tag, attribute mapping,
text content (`none` when the element has no text node) and child
elements. A whole document is the root `XElem`; `ET.fromstring` is
modelled as an `Option XElem` where `none` stands for `ET.ParseError`. -/
inductive XElem : Type where
  | mk : String → List (String × String) → Option String → List XElem → XElem

/-- Tag of an element. -/
def XElem.tag : XElem → String
  | .mk t _ _ _ => t

/-- Attribute list of an element (keys unique, document order). -/
def XElem.attrs : XElem → List (String × String)
  | .mk _ a _ _ => a

/-- Text content of an element, `none` if it has none. -/
def XElem.text : XElem → Option String
  | .mk _ _ tx _ => tx

/-- Child elements, in document order. -/
def XElem.children : XElem → List XElem
  | .mk _ _ _ cs => cs

/-- `elem.findall(tag)`: all direct children with the given tag, in order. -/
def XElem.findAll (e : XElem) (tag : String) : List XElem :=
  e.children.filter (fun c => c.tag == tag)

/-- `elem.find(tag)`: the first direct child with the given tag. -/
def XElem.find (e : XElem) (tag : String) : Option XElem :=
  (e.findAll tag).head?

/-- `elem.get(name)`: attribute lookup. -/
def XElem.getAttr (e : XElem) (name : String) : Option String :=
  e.attrs.lookup name

/-- `elem.findtext(tag)`: `none` when no such child exists; the empty
string when the child exists but has no text. -/
def XElem.findtext (e : XElem) (tag : String) : Option String :=
  (e.find tag).map (fun c => c.text.getD "")

/-- The ElementTree-expanded tag of `torznab:attr` under the namespace
mapping `NAMESPACES` of `jackett.py`. -/
def torznabAttrTag : String := "\x7bhttp://torznab.com/schemas/2015/feed\x7dattr"

/-! ### `jackett.py` data model -/

/-- The `<enclosure>` element data (pydantic model `Enclosure`). -/
structure Enclosure where
  url : String
  length : Int
  type : String
deriving DecidableEq, Repr

/-- An `<item>` of the Torznab RSS feed (pydantic model `SearchItem`),
after validation. `torznab_attrs` is the open string-to-string mapping
(insertion order preserved, keys unique, as a Python dict). -/
structure SearchItem where
  title : String
  guid : String
  indexer_id : String
  indexer_name : String
  item_type : String
  comments : Option String
  pub_date : PDateTime
  size : Int
  grabs : Int
  description : Option String
  link : String
  categories : List String
  enclosure : Option Enclosure
  torznab_attrs : List (String × String)
deriving DecidableEq, Repr

/-- The `SearchItem.check_non_negative` pydantic validator: `int(value)`
then reject negatives; `none` models the raised error. -/
def check_non_negative (value : String) : Option Int :=
  match pyInt value with
  | none => none
  | some v => if v < 0 then none else some v

/-- The `SearchItem.parse_pub_date` pydantic validator:
`datetime.strptime(value, "%a, %d %b %Y %H:%M:%S %z")`. -/
def parse_pub_date (value : String) : Option PDateTime :=
  strptimeRFC822 value

/-- The `data` dict assembled for one `<item>` before validation. -/
structure ItemData where
  title : Option String
  guid : Option String
  type : Option String
  comments : Option String
  pubDate : Option String
  size : Option String
  grabs : Option String
  description : Option String
  link : Option String
  indexer_id : Option String
  indexer_name : Option String
  categories : List String
  enclosure : Option Enclosure
  torznab_attrs : List (String × String)

/-- `jackettindexer` id attribute, `none` when the element is absent. -/
def extractIndexerId (item : XElem) : Option String :=
  match item.find "jackettindexer" with
  | some el => el.getAttr "id"
  | none => none

/-- `jackettindexer` display name: `indexer_elem.text.strip() if
indexer_elem.text else None` — a missing or empty text yields `none`,
any other text is stripped. -/
def extractIndexerName (item : XElem) : Option String :=
  match item.find "jackettindexer" with
  | some el =>
    match el.text with
    | some t => if t == "" then none else some (pyStrip t)
    | none => none
  | none => none

/-- The optional `<enclosure>`: a failure to read `url`/`length`/`type`
is caught and yields `none` (warning only), never failing the item. -/
def extractEnclosure (item : XElem) : Option Enclosure :=
  match item.find "enclosure" with
  | none => none
  | some enc =>
    match (match enc.getAttr "length" with
           | some s => pyInt s
           | none => some 0) with
    | none => none
    | some len =>
      match enc.getAttr "url", enc.getAttr "type" with
      | some u, some t => some ⟨u, len, t⟩
      | _, _ => none

/-- Python dict assignment `m[k] = v`: update in place or append. -/
def dictInsert (m : List (String × String)) (k v : String) : List (String × String) :=
  if m.any (fun p => p.1 == k) then
    m.map (fun p => if p.1 == k then (k, v) else p)
  else m ++ [(k, v)]

/-- All `torznab:attr` children folded into the attribute dict; an
entry is kept only when the `name` attribute is truthy and the `value`
attribute is present. -/
def extractTorznabAttrs (item : XElem) : List (String × String) :=
  (item.findAll torznabAttrTag).foldl
    (fun m a =>
      match a.getAttr "name", a.getAttr "value" with
      | some n, some v => if n == "" then m else dictInsert m n v
      | _, _ => m)
    []

/-- Field extraction for one `<item>` element, mirroring the `data`
dict filled by `parse_torznab_xml`. -/
def extractData (item : XElem) : ItemData :=
  { title := item.findtext "title"
    guid := item.findtext "guid"
    type := item.findtext "type"
    comments := item.findtext "comments"
    pubDate := item.findtext "pubDate"
    size := item.findtext "size"
    grabs := item.findtext "grabs"
    description := item.findtext "description"
    link := item.findtext "link"
    indexer_id := extractIndexerId item
    indexer_name := extractIndexerName item
    categories := (item.findAll "category").filterMap
      (fun c => match c.text with
                | some t => if t == "" then none else some t
                | none => none)
    enclosure := extractEnclosure item
    torznab_attrs := extractTorznabAttrs item }

/-- The per-item required-field check of `parse_torznab_xml`:
`missing_required` is non-empty exactly when this is `true`. -/
def missingRequired (d : ItemData) : Bool :=
  d.title.isNone || d.guid.isNone || d.type.isNone || d.pubDate.isNone ||
  d.size.isNone || d.grabs.isNone || d.link.isNone ||
  d.indexer_id.isNone || d.indexer_name.isNone

/-- The explicit required-field check followed by `SearchItem(**data)`;
`none` models `continue` on missing fields and a caught
`ValidationError` from the pydantic validators. -/
def validateItem (d : ItemData) : Option SearchItem :=
  if missingRequired d then none
  else
    match d.title with
    | none => none
    | some title =>
    match d.guid with
    | none => none
    | some guid =>
    match d.type with
    | none => none
    | some item_type =>
    match d.pubDate with
    | none => none
    | some pubDateStr =>
    match d.size with
    | none => none
    | some sizeStr =>
    match d.grabs with
    | none => none
    | some grabsStr =>
    match d.link with
    | none => none
    | some link =>
    match d.indexer_id with
    | none => none
    | some indexer_id =>
    match d.indexer_name with
    | none => none
    | some indexer_name =>
    match check_non_negative sizeStr with
    | none => none
    | some size =>
    match check_non_negative grabsStr with
    | none => none
    | some grabs =>
    match parse_pub_date pubDateStr with
    | none => none
    | some pub_date =>
    some { title, guid, indexer_id, indexer_name, item_type,
           comments := d.comments, pub_date, size, grabs,
           description := d.description, link,
           categories := d.categories, enclosure := d.enclosure,
           torznab_attrs := d.torznab_attrs }

/-- One loop iteration of `parse_torznab_xml`: extraction then
validation; `none` means the item is skipped. -/
def buildItem (item : XElem) : Option SearchItem :=
  validateItem (extractData item)

/-- `JackettAPI.parse_torznab_xml`: `none` input models an
`ET.ParseError` (caught, empty result); a document without a `channel`
child yields the empty list; otherwise each `<item>` is parsed and
invalid items are skipped. -/
def JackettAPI.parse_torznab_xml (root : Option XElem) : List SearchItem :=
  match root with
  | none => []
  | some r =>
    match r.find "channel" with
    | none => []
    | some channel => (channel.findAll "item").filterMap buildItem

/-! ### `jackett.py` search calls

Each search call performs one HTTP GET and runs
`items.sort(key=lambda x: x.torznab_attrs["seeders"], reverse=True)` on
the parser's output. The dict subscript raises `KeyError` when an item
has no `"seeders"` attribute; `list.sort` with `reverse=True` is a
stable sort by the (string-valued) key, descending. -/

/-- Python `str < str`: lexicographic comparison by code point. -/
def pyStrLtList : List Char → List Char → Bool
  | [], [] => false
  | [], _ :: _ => true
  | _ :: _, [] => false
  | a :: as, b :: bs =>
    if a.toNat < b.toNat then true
    else if b.toNat < a.toNat then false
    else pyStrLtList as bs

/-- Python `str < str` on strings. -/
def pyStrLt (a b : String) : Bool := pyStrLtList a.data b.data

/-- Stable insertion of `x` into a descending-by-key list: `x` goes
after all elements whose key is `≥` its own. -/
def insortDesc (key : SearchItem → String) (x : SearchItem) : List SearchItem → List SearchItem
  | [] => [x]
  | y :: ys => if pyStrLt (key y) (key x) then x :: y :: ys else y :: insortDesc key x ys

/-- `list.sort(key=..., reverse=True)`: stable descending sort. -/
def sortDescBy (key : SearchItem → String) (items : List SearchItem) : List SearchItem :=
  items.foldl (fun acc x => insortDesc key x acc) []

/-- The shared sort step of the three search calls:
`items.sort(key=lambda x: x.torznab_attrs["seeders"], reverse=True)`.
The key is the raw attribute STRING; a missing key raises `KeyError`. -/
def sortBySeeders (items : List SearchItem) : Except PyError (List SearchItem) :=
  if items.all (fun x => (x.torznab_attrs.lookup "seeders").isSome) then
    .ok (sortDescBy (fun x => (x.torznab_attrs.lookup "seeders").getD "") items)
  else .error (.keyError "seeders")

/-- `JackettAPI.search`: parse the response body, then sort by the
`"seeders"` attribute, descending. -/
def JackettAPI.search (query : String) (response : Option XElem) :
    Except PyError (List SearchItem) :=
  sortBySeeders (JackettAPI.parse_torznab_xml response)

/-- `JackettAPI.search_show`: same parse-and-sort on its response. -/
def JackettAPI.search_show (name : String) (season : Option Int) (quality : String)
    (response : Option XElem) : Except PyError (List SearchItem) :=
  sortBySeeders (JackettAPI.parse_torznab_xml response)

/-- `JackettAPI.search_movie`: same parse-and-sort on its response. -/
def JackettAPI.search_movie (name : String) (quality : String)
    (response : Option XElem) : Except PyError (List SearchItem) :=
  sortBySeeders (JackettAPI.parse_torznab_xml response)

/-! ### `real_debrid.py` model -/

/-- The response of the add-magnet request (pydantic `RDAddMagnet`). -/
structure RDAddMagnet where
  id : String
  uri : String
deriving DecidableEq, Repr

/-- A torrent on Real-Debrid (pydantic `RDTorrent`). -/
structure RDTorrent where
  id : String
  filename : String
  hash : String
  bytes : Int
  host : String
  split : Int
  progress : Int
  status : String
  added : String
  links : List String
  ended : Option String
  speed : Option Int
  seeders : Option Int
deriving DecidableEq, Repr

/-- One decoded JSON element of a `/torrents` response: each pydantic
field is present (`some`) or absent (`none`). -/
structure RDTorrentJson where
  id : Option String := none
  filename : Option String := none
  hash : Option String := none
  bytes : Option Int := none
  host : Option String := none
  split : Option Int := none
  progress : Option Int := none
  status : Option String := none
  added : Option String := none
  links : Option (List String) := none
  ended : Option String := none
  speed : Option Int := none
  seeders : Option Int := none
deriving DecidableEq, Repr

/-- `RDTorrent(**item)`: pydantic validation requiring every
non-optional field; `none` models a raised `ValidationError`. -/
def validateRDTorrent (j : RDTorrentJson) : Option RDTorrent :=
  match j.id with
  | none => none
  | some id =>
  match j.filename with
  | none => none
  | some filename =>
  match j.hash with
  | none => none
  | some hash =>
  match j.bytes with
  | none => none
  | some bytes =>
  match j.host with
  | none => none
  | some host =>
  match j.split with
  | none => none
  | some split =>
  match j.progress with
  | none => none
  | some progress =>
  match j.status with
  | none => none
  | some status =>
  match j.added with
  | none => none
  | some added =>
  match j.links with
  | none => none
  | some links =>
  some ⟨id, filename, hash, bytes, host, split, progress, status, added, links,
        j.ended, j.speed, j.seeders⟩

/-- The list comprehension `[RDTorrent(**item) for item in response.json()]`:
the first failing element aborts the whole comprehension. -/
def validateAllTorrents : List RDTorrentJson → Option (List RDTorrent)
  | [] => some []
  | j :: rest =>
    match validateRDTorrent j with
    | none => none
    | some t =>
      match validateAllTorrents rest with
      | none => none
      | some ts => some (t :: ts)

/-- Result of `RealDebrid.get_torrents`: either the torrent list or the
error-shaped dict the method returns in place of raising. -/
inductive RDTorrentsResult where
  | torrents (items : List RDTorrent)
  | errorValue (message : String)
deriving DecidableEq, Repr

/-- `RealDebrid.get_torrents`, given the response status and decoded
JSON array. Non-200 and validation failures both return an error value
(a `{"error": ...}` dict in the source), never raise, and never return
a partial list. -/
def RealDebrid.get_torrents (status : Nat) (body : List RDTorrentJson) : RDTorrentsResult :=
  if status == 200 then
    match validateAllTorrents body with
    | some torrent_list => .torrents torrent_list
    | none => .errorValue "Validation error occurred while parsing torrents."
  else .errorValue ("Unable to fetch torrents. Status code: " ++ toString status)

/-- `RealDebrid.delete_torrent`, given the response status: raises
`HTTPStatusError` for status > 299, returns `None` otherwise. -/
def RealDebrid.delete_torrent (torrent_id : String) (status : Nat) : Except PyError Unit :=
  if status > 299 then
    .error (.httpStatusError
      ("Failed to delete torrent. Status code: " ++ toString status) status)
  else .ok ()

/-- A select-files POST issued to `/torrents/selectFiles/{id}` with its
form payload `files`. -/
structure SelectFilesCall where
  torrent_id : String
  files : String
deriving DecidableEq, Repr

/-- `RealDebrid.select_torrent_files`, given the response status of its
POST: the call is always issued (recorded in the second component),
then a status > 299 raises. -/
def RealDebrid.select_torrent_files (torrent_id : String) (file_ids : String)
    (selectStatus : Nat) : Except PyError Unit × List SelectFilesCall :=
  ((if selectStatus > 299 then
      .error (.httpStatusError
        ("Failed to select files for torrent " ++ torrent_id ++ ". Status code: " ++
          toString selectStatus) selectStatus)
    else .ok ()),
   [⟨torrent_id, file_ids⟩])

/-- `RealDebrid.add_magnet`, given the status of the addMagnet POST,
its decoded body (`none` when `RDAddMagnet(**json)` fails validation)
and the status of the subsequent selectFiles POST. Returns the call's
outcome together with the list of select-files calls issued. -/
def RealDebrid.add_magnet (magnet_url : String) (addStatus : Nat)
    (addBody : Option RDAddMagnet) (selectStatus : Nat) :
    Except PyError RDAddMagnet × List SelectFilesCall :=
  if addStatus < 299 then
    match addBody with
    | some parsed =>
      let r := RealDebrid.select_torrent_files parsed.id "all" selectStatus
      (match r.1 with
       | .ok _ => .ok parsed
       | .error e => .error e, r.2)
    | none => (.error .validationError, [])
  else
    (.error (.httpStatusError
      ("Failed to add magnet link. Status code: " ++ toString addStatus) addStatus), [])

/-- `RealDebrid.get_time`, given the `/time` response: on 200 the text
is parsed with `strptime` (a mismatch raises `ValueError`); any other
status returns `None`. -/
def RealDebrid.get_time (status : Nat) (text : String) : Except PyError (Option PDateTime) :=
  if status == 200 then
    match strptimeServerTime text with
    | some server_time => .ok (some server_time)
    | none => .error (.valueError ("time data " ++ text ++ " does not match format"))
  else .ok none

/-- `RealDebrid.get_user_info`, given the `/user` response status and
decoded JSON mapping: non-200 yields an error-shaped mapping. -/
def RealDebrid.get_user_info (status : Nat) (body : List (String × String)) :
    List (String × String) :=
  if status == 200 then body
  else [("error", "Unable to fetch user information. Status code: " ++ toString status)]

/-- `RealDebrid.get_premium_time_left`: looks up `"expiration"` in the
user info, parses it, and subtracts `self.get_time()` from it. When
`get_time` returns `None` (non-200 `/time`), the subtraction raises
`TypeError`; when the key is absent the method returns `None`. -/
def RealDebrid.get_premium_time_left (userStatus : Nat) (userBody : List (String × String))
    (timeStatus : Nat) (timeText : String) : Except PyError (Option Int) :=
  let user_info := RealDebrid.get_user_info userStatus userBody
  match user_info.lookup "expiration" with
  | some expiration_timestamp =>
    match strptimeExpiration expiration_timestamp with
    | none => .error (.valueError
        ("time data " ++ expiration_timestamp ++ " does not match format"))
    | some expiration_date =>
      match RealDebrid.get_time timeStatus timeText with
      | .error e => .error e
      | .ok none => .error (.typeError
          "unsupported operand type(s) for -: 'datetime.datetime' and 'NoneType'")
      | .ok (some server_time) => .ok (some (dtSub expiration_date server_time))
  | none => .ok none

/-! ### Concrete feed documents used as witnesses -/

/-- A leaf element with only text content. -/
def xtext (tag value : String) : XElem := .mk tag [] (some value) []

/-- A `torznab:attr` element with `name`/`value` attributes. -/
def torznabAttr (n v : String) : XElem :=
  .mk torznabAttrTag [("name", n), ("value", v)] none []

/-- The standard children of a fully valid feed item with guid `g`. -/
def stdChildren (g : String) : List XElem :=
  [xtext "title" ("Title " ++ g),
   xtext "guid" g,
   xtext "type" "movie",
   xtext "pubDate" "Mon, 02 Jun 2025 10:00:00 +0000",
   xtext "size" "100",
   xtext "grabs" "3",
   xtext "link" "http://dl/file",
   XElem.mk "jackettindexer" [("id", "ix")] (some "Indexer") []]

/-- A valid item with guid `g` and a seeders attribute `s`. -/
def goodItem (g s : String) : XElem :=
  .mk "item" [] none (stdChildren g ++ [torznabAttr "seeders" s])

/-- A valid item with no `seeders` torznab attribute. -/
def itemNoSeeders : XElem := .mk "item" [] none (stdChildren "ns")

/-- An item missing its `<title>` element. -/
def itemNoTitle : XElem :=
  .mk "item" [] none ((stdChildren "nt").drop 1 ++ [torznabAttr "seeders" "7"])

/-- An item whose `<size>` is negative. -/
def itemNegSize : XElem :=
  .mk "item" [] none
    [xtext "title" "Title neg",
     xtext "guid" "neg",
     xtext "type" "movie",
     xtext "pubDate" "Mon, 02 Jun 2025 10:00:00 +0000",
     xtext "size" "-5",
     xtext "grabs" "3",
     xtext "link" "http://dl/file",
     XElem.mk "jackettindexer" [("id", "ix")] (some "Indexer") [],
     torznabAttr "seeders" "7"]

/-- An item whose `<pubDate>` does not match the expected format. -/
def itemBadDate : XElem :=
  .mk "item" [] none
    [xtext "title" "Title bd",
     xtext "guid" "bd",
     xtext "type" "movie",
     xtext "pubDate" "2025-06-02",
     xtext "size" "100",
     xtext "grabs" "3",
     xtext "link" "http://dl/file",
     XElem.mk "jackettindexer" [("id", "ix")] (some "Indexer") [],
     torznabAttr "seeders" "7"]

/-- A valid-but-for-the-indexer item whose `jackettindexer` element has
whitespace-only text and a present `id` attribute. -/
def itemWSIndexer : XElem :=
  .mk "item" [] none
    [xtext "title" "Title ws",
     xtext "guid" "ws",
     xtext "type" "movie",
     xtext "pubDate" "Mon, 02 Jun 2025 10:00:00 +0000",
     xtext "size" "100",
     xtext "grabs" "3",
     xtext "link" "http://dl/file",
     XElem.mk "jackettindexer" [("id", "ix")] (some " ") [],
     torznabAttr "seeders" "7"]

/-- An item whose `jackettindexer` element has no text at all. -/
def itemEmptyIndexer : XElem :=
  .mk "item" [] none
    [xtext "title" "Title ei",
     xtext "guid" "ei",
     xtext "type" "movie",
     xtext "pubDate" "Mon, 02 Jun 2025 10:00:00 +0000",
     xtext "size" "100",
     xtext "grabs" "3",
     xtext "link" "http://dl/file",
     XElem.mk "jackettindexer" [("id", "ix")] none [],
     torznabAttr "seeders" "7"]

/-- A channel element wrapping the given items. -/
def mkChannel (items : List XElem) : XElem := .mk "channel" [] none items

/-- An rss document wrapping the given items in one channel. -/
def mkFeed (items : List XElem) : XElem := .mk "rss" [] none [mkChannel items]

/-- Three valid items whose seeders attributes are "5", "20", "1". -/
def feedSeeders : XElem := mkFeed [goodItem "a" "5", goodItem "b" "20", goodItem "c" "1"]

/-- A document with no `channel` element. -/
def feedNoChannel : XElem := .mk "rss" [] none [xtext "info" "empty"]

/-- A `/torrents` JSON element with every required field present. -/
def rdFull (i : String) : RDTorrentJson :=
  { id := some i, filename := some "file.mkv", hash := some "abcd1234",
    bytes := some 1000, host := some "real-debrid.com", split := some 2000,
    progress := some 100, status := some "downloaded",
    added := some "2025-06-01T00:00:00.000Z", links := some ["http://link"] }

/-- A `/torrents` JSON element missing its `hash` field. -/
def rdNoHash : RDTorrentJson :=
  { id := some "2", filename := some "file.mkv",
    bytes := some 1000, host := some "real-debrid.com", split := some 2000,
    progress := some 100, status := some "downloaded",
    added := some "2025-06-01T00:00:00.000Z", links := some ["http://link"] }

/-! ### Helper lemmas -/

/-- Unfolding the parser when the document has a channel. -/
theorem parse_some_eq (root channel : XElem) (h : root.find "channel" = some channel) :
    JackettAPI.parse_torznab_xml (some root) =
      (channel.findAll "item").filterMap buildItem := by
  simp [JackettAPI.parse_torznab_xml, h]

/-- Removing one skipped item from `filterMap` leaves the rest, in order. -/
theorem filterMap_buildItem_split (xs ys : List XElem) (e : XElem)
    (he : buildItem e = none) :
    (xs ++ e :: ys).filterMap buildItem =
      xs.filterMap buildItem ++ ys.filterMap buildItem := by
  simp [List.filterMap_append, List.filterMap_cons, he]

/-- A missing required field makes validation skip the item. -/
theorem validateItem_none_of_missing (d : ItemData) (h : missingRequired d = true) :
    validateItem d = none := by
  simp [validateItem, h]

/-- A `none` indexer name is a missing required field. -/
theorem missingRequired_of_indexer_name (d : ItemData) (h : d.indexer_name = none) :
    missingRequired d = true := by
  simp [missingRequired, h]

/-- The non-negative check fails on non-numeric and on negative input. -/
theorem check_non_negative_eq_none (s : String)
    (h : pyInt s = none ∨ ∃ v, pyInt s = some v ∧ v < 0) :
    check_non_negative s = none := by
  rcases h with h | ⟨v, hv, hneg⟩
  · simp [check_non_negative, h]
  · simp [check_non_negative, hv, hneg]

/-- A failing size or grabs check makes validation skip the item. -/
theorem validateItem_none_of_bad_size_grabs (d : ItemData)
    (h : (∃ s, d.size = some s ∧ check_non_negative s = none) ∨
         (∃ s, d.grabs = some s ∧ check_non_negative s = none)) :
    validateItem d = none := by
  rcases h1 : d.title with _ | t
  · simp [validateItem, missingRequired, h1]
  rcases h2 : d.guid with _ | g
  · simp [validateItem, missingRequired, h2]
  rcases h3 : d.type with _ | ty
  · simp [validateItem, missingRequired, h3]
  rcases h4 : d.pubDate with _ | pd
  · simp [validateItem, missingRequired, h4]
  rcases h5 : d.size with _ | sz
  · simp [validateItem, missingRequired, h5]
  rcases h6 : d.grabs with _ | gr
  · simp [validateItem, missingRequired, h6]
  rcases h7 : d.link with _ | lk
  · simp [validateItem, missingRequired, h7]
  rcases h8 : d.indexer_id with _ | iid
  · simp [validateItem, missingRequired, h8]
  rcases h9 : d.indexer_name with _ | inm
  · simp [validateItem, missingRequired, h9]
  have hmiss : missingRequired d = false := by
    simp [missingRequired, h1, h2, h3, h4, h5, h6, h7, h8, h9]
  have hbad : check_non_negative sz = none ∨ check_non_negative gr = none := by
    rcases h with ⟨s, hs, hc⟩ | ⟨s, hs, hc⟩
    · left; rw [h5] at hs; injection hs with hh; rw [hh]; exact hc
    · right; rw [h6] at hs; injection hs with hh; rw [hh]; exact hc
  rcases hbad with hc | hc
  · simp [validateItem, hmiss, h1, h2, h3, h4, h5, h6, h7, h8, h9, hc]
  · rcases hcs : check_non_negative sz with _ | v
    · simp [validateItem, hmiss, h1, h2, h3, h4, h5, h6, h7, h8, h9, hcs]
    · simp [validateItem, hmiss, h1, h2, h3, h4, h5, h6, h7, h8, h9, hcs, hc]

/-- An absent or empty jackettindexer text yields no indexer name. -/
theorem extractIndexerName_none (e x : XElem) (hf : e.find "jackettindexer" = some x)
    (ht : x.text = none ∨ x.text = some "") :
    extractIndexerName e = none := by
  rcases ht with ht | ht <;> simp [extractIndexerName, hf, ht]

/-- One invalid element poisons the whole torrent-list comprehension. -/
theorem validateAllTorrents_none (l : List RDTorrentJson) (x : RDTorrentJson)
    (hx : x ∈ l) (hv : validateRDTorrent x = none) :
    validateAllTorrents l = none := by
  induction l with
  | nil => cases hx
  | cons a t ih =>
    rcases List.mem_cons.mp hx with rfl | hmem
    · simp [validateAllTorrents, hv]
    · rcases ha : validateRDTorrent a with _ | v
      · simp [validateAllTorrents, ha]
      · simp [validateAllTorrents, ha, ih hmem]

/-! ### Claim theorems -/

/-- C1: the three Feed Client search calls do NOT order by the seeders
value as an integer. The sort key is the raw attribute string, so on
the three-item feed with seeders "5", "20", "1" each call returns the
items in seeder order [5, 20, 1] (string-descending), not the
[20, 5, 1] that integer interpretation would give. -/
theorem search_sorts_seeders_as_strings :
    ((JackettAPI.search "q" (some feedSeeders)).toOption.map
        (fun l => l.map (fun x => x.torznab_attrs.lookup "seeders")) =
      some [some "5", some "20", some "1"]) ∧
    ((JackettAPI.search_show "q" none "1080p" (some feedSeeders)).toOption.map
        (fun l => l.map (fun x => x.torznab_attrs.lookup "seeders")) =
      some [some "5", some "20", some "1"]) ∧
    ((JackettAPI.search_movie "q" "1080p" (some feedSeeders)).toOption.map
        (fun l => l.map (fun x => x.torznab_attrs.lookup "seeders")) =
      some [some "5", some "20", some "1"]) :=
  ⟨by decide, by decide, by decide⟩

/-- C2: an add-magnet call whose POST returns a success status
(status < 299) and a body parsing to `{id, uri}` issues exactly one
select-files call for that id with files "all" and returns the parsed
pair; a non-success status raises a status error carrying the status
and issues no select-files call. -/
theorem add_magnet_selects_all_on_success :
    ∀ (magnet_url : String) (addStatus : Nat) (addBody : Option RDAddMagnet)
      (selectStatus : Nat),
      (addStatus < 299 → ∀ parsed, addBody = some parsed → selectStatus ≤ 299 →
        RealDebrid.add_magnet magnet_url addStatus addBody selectStatus =
          (.ok parsed, [⟨parsed.id, "all"⟩])) ∧
      (299 ≤ addStatus → ∃ msg,
        RealDebrid.add_magnet magnet_url addStatus addBody selectStatus =
          (.error (.httpStatusError msg addStatus), [])) := by
  intro m s b sel
  constructor
  · intro hs p hb hsel
    subst hb
    simp [RealDebrid.add_magnet, RealDebrid.select_torrent_files, hs, Nat.not_lt.mpr hsel]
  · intro hs
    refine ⟨"Failed to add magnet link. Status code: " ++ toString s, ?_⟩
    simp [RealDebrid.add_magnet, Nat.not_lt.mpr hs]

/-- Witness for C2 at status 200, body `{"id": "abc", "uri": "http://x"}`,
select status 204, and at non-success status 404. -/
theorem add_magnet_selects_all_on_success_witness :
    (RealDebrid.add_magnet "magnet:?xt=u" 200 (some ⟨"abc", "http://x"⟩) 204 =
      (.ok ⟨"abc", "http://x"⟩, [⟨"abc", "all"⟩])) ∧
    (∃ msg, RealDebrid.add_magnet "magnet:?xt=u" 404 (some ⟨"abc", "http://x"⟩) 204 =
      (.error (.httpStatusError msg 404), [])) :=
  ⟨(add_magnet_selects_all_on_success "magnet:?xt=u" 200 (some ⟨"abc", "http://x"⟩) 204).1
      (by decide) ⟨"abc", "http://x"⟩ rfl (by decide),
   (add_magnet_selects_all_on_success "magnet:?xt=u" 404 (some ⟨"abc", "http://x"⟩) 204).2
      (by decide)⟩

/-- C3: the Torznab parser never raises: an unparsable document (an
`ET.ParseError`, the `none` input) yields the empty sequence, a
document without a `channel` element yields the empty sequence, and a
malformed item (one whose build is skipped) is omitted while all other
items are still parsed, in order. -/
theorem parse_never_raises :
    (JackettAPI.parse_torznab_xml none = []) ∧
    (∀ root : XElem, root.find "channel" = none →
      JackettAPI.parse_torznab_xml (some root) = []) ∧
    (∀ (root channel : XElem) (xs ys : List XElem) (e : XElem),
      root.find "channel" = some channel →
      channel.findAll "item" = xs ++ e :: ys →
      buildItem e = none →
      JackettAPI.parse_torznab_xml (some root) =
        xs.filterMap buildItem ++ ys.filterMap buildItem) := by
  refine ⟨rfl, ?_, ?_⟩
  · intro root h
    simp [JackettAPI.parse_torznab_xml, h]
  · intro root channel xs ys e hc hitems he
    rw [parse_some_eq root channel hc, hitems, filterMap_buildItem_split xs ys e he]

/-- Witness for C3: a channel-less document parses to `[]`, and a feed
whose second item has an unparsable pubDate still yields the first item. -/
theorem parse_never_raises_witness :
    (JackettAPI.parse_torznab_xml (some feedNoChannel) = []) ∧
    (JackettAPI.parse_torznab_xml (some (mkFeed [goodItem "a" "5", itemBadDate])) =
      [goodItem "a" "5"].filterMap buildItem ++ ([] : List XElem).filterMap buildItem) :=
  ⟨parse_never_raises.2.1 feedNoChannel rfl,
   parse_never_raises.2.2 (mkFeed [goodItem "a" "5", itemBadDate])
      (mkChannel [goodItem "a" "5", itemBadDate]) [goodItem "a" "5"] [] itemBadDate
      rfl rfl (by decide)⟩

/-- C4: when the parsed feed contains an item with no "seeders" key in
its attribute mapping, every search call fails hard with the `KeyError`
of the sort-key lookup instead of defaulting the missing key. -/
theorem search_missing_seeders_raises :
    ∀ (query name quality : String) (season : Option Int) (response : Option XElem),
      (∃ x ∈ JackettAPI.parse_torznab_xml response,
        x.torznab_attrs.lookup "seeders" = none) →
      JackettAPI.search query response = .error (.keyError "seeders") ∧
      JackettAPI.search_show name season quality response = .error (.keyError "seeders") ∧
      JackettAPI.search_movie name quality response = .error (.keyError "seeders") := by
  intro q n ql se resp hex
  obtain ⟨x, hx, hnone⟩ := hex
  have hall : (JackettAPI.parse_torznab_xml resp).all
      (fun x => (x.torznab_attrs.lookup "seeders").isSome) = false := by
    cases hA : (JackettAPI.parse_torznab_xml resp).all
        (fun x => (x.torznab_attrs.lookup "seeders").isSome)
    · rfl
    · exfalso
      have := List.all_eq_true.mp hA x hx
      rw [hnone] at this
      exact absurd this (by simp)
  refine ⟨?_, ?_, ?_⟩ <;>
    simp [JackettAPI.search, JackettAPI.search_show, JackettAPI.search_movie,
      sortBySeeders, hall]

/-- Witness for C4: a feed whose only (otherwise valid) item carries no
seeders attribute makes `search` return the KeyError. -/
theorem search_missing_seeders_raises_witness :
    JackettAPI.search "q" (some (mkFeed [itemNoSeeders])) = .error (.keyError "seeders") :=
  (search_missing_seeders_raises "q" "n" "1080p" none (some (mkFeed [itemNoSeeders]))
    (by decide)).1

/-- C5: `get_torrents` surfaces a non-200 status or any single failing
element as a batch-level error value — never an exception, never a
partial list. -/
theorem get_torrents_batch_error :
    ∀ (status : Nat) (body : List RDTorrentJson),
      (status ≠ 200 → ∃ msg, RealDebrid.get_torrents status body = .errorValue msg) ∧
      (status = 200 → ∀ x ∈ body, validateRDTorrent x = none →
        RealDebrid.get_torrents status body =
          .errorValue "Validation error occurred while parsing torrents.") := by
  intro s b
  constructor
  · intro hs
    refine ⟨"Unable to fetch torrents. Status code: " ++ toString s, ?_⟩
    have hbeq : (s == 200) = false := by simpa using hs
    simp [RealDebrid.get_torrents, hbeq]
  · rintro rfl x hx hv
    have hvall : validateAllTorrents b = none := validateAllTorrents_none b x hx hv
    simp [RealDebrid.get_torrents, hvall]

/-- Witness for C5 at status 503 and at a 200 batch of three elements
whose middle element lacks `hash`. -/
theorem get_torrents_batch_error_witness :
    (∃ msg, RealDebrid.get_torrents 503 [rdFull "1"] = .errorValue msg) ∧
    RealDebrid.get_torrents 200 [rdFull "1", rdNoHash, rdFull "3"] =
      .errorValue "Validation error occurred while parsing torrents." :=
  ⟨(get_torrents_batch_error 503 [rdFull "1"]).1 (by decide),
   (get_torrents_batch_error 200 [rdFull "1", rdNoHash, rdFull "3"]).2 rfl rdNoHash
      (by decide) rfl⟩

/-- C6: an item whose extraction lacks any one required field (title,
guid, type, pubDate, size, grabs, link, indexer id, indexer name) is
omitted, and the parse of the document equals the in-order parse of the
remaining items. -/
theorem parse_skips_missing_required :
    ∀ (root channel : XElem) (xs ys : List XElem) (e : XElem),
      root.find "channel" = some channel →
      channel.findAll "item" = xs ++ e :: ys →
      missingRequired (extractData e) = true →
      JackettAPI.parse_torznab_xml (some root) =
        xs.filterMap buildItem ++ ys.filterMap buildItem := by
  intro root channel xs ys e hc hitems hmiss
  have he : buildItem e = none := validateItem_none_of_missing _ hmiss
  rw [parse_some_eq root channel hc, hitems, filterMap_buildItem_split xs ys e he]

/-- Witness for C6: a feed of three items whose middle item has no
title parses to exactly the other two. -/
theorem parse_skips_missing_required_witness :
    JackettAPI.parse_torznab_xml
        (some (mkFeed [goodItem "a" "5", itemNoTitle, goodItem "c" "1"])) =
      [goodItem "a" "5"].filterMap buildItem ++ [goodItem "c" "1"].filterMap buildItem :=
  parse_skips_missing_required
    (mkFeed [goodItem "a" "5", itemNoTitle, goodItem "c" "1"])
    (mkChannel [goodItem "a" "5", itemNoTitle, goodItem "c" "1"])
    [goodItem "a" "5"] [goodItem "c" "1"] itemNoTitle rfl rfl (by decide)

/-- C7: an item whose size or grabs text is non-numeric or parses to a
negative integer is rejected (not coerced), and the parse of the
document equals the in-order parse of the remaining items. -/
theorem parse_rejects_bad_size_grabs :
    ∀ (root channel : XElem) (xs ys : List XElem) (e : XElem),
      root.find "channel" = some channel →
      channel.findAll "item" = xs ++ e :: ys →
      ((∃ s, (extractData e).size = some s ∧
          (pyInt s = none ∨ ∃ v, pyInt s = some v ∧ v < 0)) ∨
       (∃ s, (extractData e).grabs = some s ∧
          (pyInt s = none ∨ ∃ v, pyInt s = some v ∧ v < 0))) →
      JackettAPI.parse_torznab_xml (some root) =
        xs.filterMap buildItem ++ ys.filterMap buildItem := by
  intro root channel xs ys e hc hitems hbad
  have he : buildItem e = none := by
    apply validateItem_none_of_bad_size_grabs
    rcases hbad with ⟨s, hs, hn⟩ | ⟨s, hs, hn⟩
    · exact Or.inl ⟨s, hs, check_non_negative_eq_none s hn⟩
    · exact Or.inr ⟨s, hs, check_non_negative_eq_none s hn⟩
  rw [parse_some_eq root channel hc, hitems, filterMap_buildItem_split xs ys e he]

/-- Witness for C7: a feed of three items whose middle item has size
"-5" parses to exactly the other two. -/
theorem parse_rejects_bad_size_grabs_witness :
    JackettAPI.parse_torznab_xml
        (some (mkFeed [goodItem "a" "5", itemNegSize, goodItem "c" "1"])) =
      [goodItem "a" "5"].filterMap buildItem ++ [goodItem "c" "1"].filterMap buildItem :=
  parse_rejects_bad_size_grabs
    (mkFeed [goodItem "a" "5", itemNegSize, goodItem "c" "1"])
    (mkChannel [goodItem "a" "5", itemNegSize, goodItem "c" "1"])
    [goodItem "a" "5"] [goodItem "c" "1"] itemNegSize rfl rfl
    (Or.inl ⟨"-5", rfl, Or.inr ⟨-5, by decide, by decide⟩⟩)

/-- C8: `delete_torrent` raises a status error carrying the response
status for every status above 299 (404 in particular) and returns
without error for every 2xx status. -/
theorem delete_torrent_status_error :
    ∀ (torrent_id : String) (status : Nat),
      (status > 299 → ∃ msg,
        RealDebrid.delete_torrent torrent_id status = .error (.httpStatusError msg status)) ∧
      (200 ≤ status → status ≤ 299 →
        RealDebrid.delete_torrent torrent_id status = .ok ()) := by
  intro tid s
  constructor
  · intro hs
    refine ⟨"Failed to delete torrent. Status code: " ++ toString s, ?_⟩
    simp [RealDebrid.delete_torrent, hs]
  · intro _ hs
    simp [RealDebrid.delete_torrent, Nat.not_lt.mpr hs]

/-- Witness for C8 at statuses 404 and 204. -/
theorem delete_torrent_status_error_witness :
    (∃ msg, RealDebrid.delete_torrent "t1" 404 = .error (.httpStatusError msg 404)) ∧
    RealDebrid.delete_torrent "t1" 204 = .ok () :=
  ⟨(delete_torrent_status_error "t1" 404).1 (by decide),
   (delete_torrent_status_error "t1" 204).2 (by decide) (by decide)⟩

/-- C9: when the user info carries a parsable "expiration" but the
`/time` request is non-200 (so `get_time` yields `None`), the premium
time computation raises a `TypeError` from the subtraction instead of
returning absent; the absent (`None`) result arises exactly when the
user-info mapping has no "expiration" key, which includes every non-200
user-info response (whose error mapping has no such key). -/
theorem get_premium_time_left_behavior :
    ∀ (userStatus : Nat) (userBody : List (String × String)) (timeStatus : Nat)
      (timeText : String),
      ((∃ e, (RealDebrid.get_user_info userStatus userBody).lookup "expiration" = some e ∧
          (strptimeExpiration e).isSome = true) → timeStatus ≠ 200 →
        ∃ msg, RealDebrid.get_premium_time_left userStatus userBody timeStatus timeText =
          .error (.typeError msg)) ∧
      (RealDebrid.get_premium_time_left userStatus userBody timeStatus timeText = .ok none →
        (RealDebrid.get_user_info userStatus userBody).lookup "expiration" = none) ∧
      (userStatus ≠ 200 →
        RealDebrid.get_premium_time_left userStatus userBody timeStatus timeText = .ok none) := by
  intro us ub ts tt
  refine ⟨?_, ?_, ?_⟩
  · rintro ⟨e, he, hsome⟩ hts
    rcases hse : strptimeExpiration e with _ | d
    · rw [hse] at hsome
      exact absurd hsome (by simp)
    · have hbeq : (ts == 200) = false := by simpa using hts
      refine ⟨"unsupported operand type(s) for -: 'datetime.datetime' and 'NoneType'", ?_⟩
      simp [RealDebrid.get_premium_time_left, he, hse, RealDebrid.get_time, hbeq]
  · intro hok
    rcases he : (RealDebrid.get_user_info us ub).lookup "expiration" with _ | e
    · rfl
    · exfalso
      rcases hse : strptimeExpiration e with _ | d
      · simp [RealDebrid.get_premium_time_left, he, hse] at hok
      · rcases hgt : RealDebrid.get_time ts tt with e' | o
        · simp [RealDebrid.get_premium_time_left, he, hse, hgt] at hok
        · rcases o with _ | t
          · simp [RealDebrid.get_premium_time_left, he, hse, hgt] at hok
          · simp [RealDebrid.get_premium_time_left, he, hse, hgt] at hok
  · intro hus
    have hbeq : (us == 200) = false := by simpa using hus
    have he : (RealDebrid.get_user_info us ub).lookup "expiration" = none := by
      simp [RealDebrid.get_user_info, hbeq, List.lookup]
    simp [RealDebrid.get_premium_time_left, he]

/-- Witness for C9: a 200 user response with a parsable expiration but
a 500 `/time` response raises TypeError; a 403 user response yields
absent. -/
theorem get_premium_time_left_behavior_witness :
    (∃ msg, RealDebrid.get_premium_time_left 200
        [("expiration", "2025-06-04T08:12:49.000Z")] 500 "irrelevant" =
      .error (.typeError msg)) ∧
    RealDebrid.get_premium_time_left 403 [] 200 "2025-06-04 08:00:00" = .ok none :=
  ⟨(get_premium_time_left_behavior 200 [("expiration", "2025-06-04T08:12:49.000Z")]
      500 "irrelevant").1 ⟨"2025-06-04T08:12:49.000Z", rfl, by decide⟩ (by decide),
   (get_premium_time_left_behavior 403 [] 200 "2025-06-04 08:00:00").2.2 (by decide)⟩

/-- C10 counterexample: an item whose `jackettindexer` element has the
whitespace-only text " " (and a present id attribute) is NOT skipped:
the parse keeps it, with its indexer name stripped to the empty string. -/
theorem whitespace_indexer_kept :
    (JackettAPI.parse_torznab_xml (some (mkFeed [itemWSIndexer]))).map
        (fun x => x.indexer_name) = [""] ∧
    (JackettAPI.parse_torznab_xml (some (mkFeed [itemWSIndexer]))).length = 1 :=
  ⟨by decide, by decide⟩

/-- C10 amended: an item whose `jackettindexer` text is absent or the
empty string is skipped as missing the indexer name; but an item whose
text is whitespace-only and non-empty is kept, its indexer name
stripped to the empty string (its id attribute intact). -/
theorem indexer_name_empty_text_skipped :
    (∀ (e x : XElem), e.find "jackettindexer" = some x →
      (x.text = none ∨ x.text = some "") → buildItem e = none) ∧
    (JackettAPI.parse_torznab_xml (some (mkFeed [itemWSIndexer]))).map
        (fun x => (x.indexer_id, x.indexer_name)) = [("ix", "")] := by
  constructor
  · intro e x hf ht
    have h1 : extractIndexerName e = none := extractIndexerName_none e x hf ht
    have h2 : (extractData e).indexer_name = none := by
      simpa [extractData] using h1
    exact validateItem_none_of_missing _ (missingRequired_of_indexer_name _ h2)
  · decide

/-- Witness for C10 amended: an item whose `jackettindexer` element has
no text at all is skipped. -/
theorem indexer_name_empty_text_skipped_witness :
    buildItem itemEmptyIndexer = none :=
  indexer_name_empty_text_skipped.1 itemEmptyIndexer
    (XElem.mk "jackettindexer" [("id", "ix")] none []) rfl (Or.inl rfl)
